import Mathlib

/-!
Shallow embedding of the py-feedr update-deduplication core
(src/feedr/monitor.py and src/feedr/tweetupdate.py), with the
DatabaseManager collaborator modelled from the specification (its module is
not part of the sources at hand).  Machine-level Python details that the
claims depend on are embedded explicitly: string slicing with negative
indices, truthiness filtering, dict-key iteration, the SHA-256 digest, and
difflib's Ratcliff/Obershelp matching ratio.
-/

/-- Python exception kinds that the embedded code can raise. -/
inductive PyError
  | typeError
  | keyError
  | indexError
  | twitterHTTPError
  | exception
deriving DecidableEq, Repr

/-- Python `'\n'.join(filter(bool, fields))`: drop absent (`None`) and empty
fields, join the rest with newlines. -/
def pyTruthyJoin (fields : List (Option String)) : String :=
  String.intercalate "\n" ((fields.filterMap id).filter (fun s => !(s == "")))

/-- Python `s[:k]` for an `Int` index: a negative `k` counts from the end,
clamping at the empty string. -/
def pySliceTo (s : String) (k : Int) : String :=
  if k < 0 then
    String.mk (s.data.take (s.data.length - min s.data.length k.natAbs))
  else
    String.mk (s.data.take k.toNat)

/-- Whether `a` is a prefix of `b`, on character lists. -/
def listIsPrefixOfL : List Char → List Char → Bool
  | [], _ => true
  | _ :: _, [] => false
  | x :: xs, y :: ys => x == y && listIsPrefixOfL xs ys

/-- Whether `a` occurs contiguously inside `b`: Python's substring test
`a in b` (true for the empty `a`). -/
def listIsInfixOfL (a b : List Char) : Bool :=
  match b with
  | [] => a.isEmpty
  | _ :: ys => listIsPrefixOfL a b || listIsInfixOfL a ys

/-- Python `a in b` on strings. -/
def pyInStr (a b : String) : Bool := listIsInfixOfL a.data b.data

/-! ## SHA-256 over byte lists

Bytes and 32-bit words are `Nat`s kept below their bound by explicit `% 2^w`
arithmetic.  Bitwise operations recurse structurally over 32 binary digits so
that every definition reduces in the kernel. -/

/-- Combine two machine words bit by bit with `f`, over `fuel` binary digits. -/
def bitCombine (f : Bool → Bool → Bool) : Nat → Nat → Nat → Nat
  | 0, _, _ => 0
  | fuel + 1, x, y =>
    (if f (x % 2 == 1) (y % 2 == 1) then 1 else 0) + 2 * bitCombine f fuel (x / 2) (y / 2)

def xor32 (x y : Nat) : Nat := bitCombine (fun a b => a != b) 32 x y

def and32 (x y : Nat) : Nat := bitCombine (fun a b => a && b) 32 x y

def not32 (x : Nat) : Nat := 4294967295 - x % 4294967296

def add32 (x y : Nat) : Nat := (x + y) % 4294967296

/-- Rotate a 32-bit word right by `n` bits. -/
def rotr32 (n x : Nat) : Nat :=
  (x % 4294967296) / 2 ^ n + (x % 2 ^ n) * 2 ^ (32 - n)

/-- Shift a 32-bit word right by `n` bits. -/
def shr32 (n x : Nat) : Nat := (x % 4294967296) / 2 ^ n

def sha256Ch (x y z : Nat) : Nat := xor32 (and32 x y) (and32 (not32 x) z)

def sha256Maj (x y z : Nat) : Nat := xor32 (and32 x y) (xor32 (and32 x z) (and32 y z))

def sha256BigSig0 (x : Nat) : Nat := xor32 (rotr32 2 x) (xor32 (rotr32 13 x) (rotr32 22 x))

def sha256BigSig1 (x : Nat) : Nat := xor32 (rotr32 6 x) (xor32 (rotr32 11 x) (rotr32 25 x))

def sha256SmallSig0 (x : Nat) : Nat := xor32 (rotr32 7 x) (xor32 (rotr32 18 x) (shr32 3 x))

def sha256SmallSig1 (x : Nat) : Nat := xor32 (rotr32 17 x) (xor32 (rotr32 19 x) (shr32 10 x))

/-- The 64 SHA-256 round constants (FIPS 180-4 section 4.2.2, written in
decimal). -/
def sha256K : List Nat :=
  [1116352408, 1899447441, 3049323471, 3921009573, 961987163, 1508970993,
   2453635748, 2870763221, 3624381080, 310598401, 607225278, 1426881987,
   1925078388, 2162078206, 2614888103, 3248222580, 3835390401, 4022224774,
   264347078, 604807628, 770255983, 1249150122, 1555081692, 1996064986,
   2554220882, 2821834349, 2952996808, 3210313671, 3336571891, 3584528711,
   113926993, 338241895, 666307205, 773529912, 1294757372, 1396182291,
   1695183700, 1986661051, 2177026350, 2456956037, 2730485921, 2820302411,
   3259730800, 3345764771, 3516065817, 3600352804, 4094571909, 275423344,
   430227734, 506948616, 659060556, 883997877, 958139571, 1322822218,
   1537002063, 1747873779, 1955562222, 2024104815, 2227730452, 2361852424,
   2428436474, 2756734187, 3204031479, 3329325298]

/-- The initial SHA-256 hash state (FIPS 180-4 section 5.3.3, decimal). -/
def sha256H0 : List Nat :=
  [1779033703, 3144134277, 1013904242, 2773480762,
   1359893119, 2600822924, 528734635, 1541459225]

/-- Big-endian 8-byte encoding of a (64-bit) length value. -/
def lenBytes64 (n : Nat) : List Nat :=
  [n / 2 ^ 56 % 256, n / 2 ^ 48 % 256, n / 2 ^ 40 % 256, n / 2 ^ 32 % 256,
   n / 2 ^ 24 % 256, n / 2 ^ 16 % 256, n / 2 ^ 8 % 256, n % 256]

/-- SHA-256 padding: append `0x80`, zeros to 56 mod 64, then the bit length. -/
def sha256Pad (msg : List Nat) : List Nat :=
  msg ++ [128] ++ List.replicate ((119 - msg.length % 64) % 64) 0 ++ lenBytes64 (8 * msg.length)

/-- Group bytes into big-endian 32-bit words. -/
def bytesToWords : List Nat → List Nat
  | b0 :: b1 :: b2 :: b3 :: rest =>
    (((b0 * 256 + b1) * 256 + b2) * 256 + b3) :: bytesToWords rest
  | _ => []

/-- Append `k` further words of the SHA-256 message schedule to `w`. -/
def sha256Extend : Nat → List Nat → List Nat
  | 0, w => w
  | k + 1, w =>
    let n := w.length
    let next := add32 (sha256SmallSig1 (w.getD (n - 2) 0))
      (add32 (w.getD (n - 7) 0) (add32 (sha256SmallSig0 (w.getD (n - 15) 0)) (w.getD (n - 16) 0)))
    sha256Extend k (w ++ [next])

/-- One round of the SHA-256 compression function on state `[a,b,c,d,e,f,g,h]`. -/
def sha256Round (st : List Nat) (kw : Nat × Nat) : List Nat :=
  match st with
  | [a, b, c, d, e, f, g, h] =>
    let t1 := add32 h (add32 (sha256BigSig1 e) (add32 (sha256Ch e f g) (add32 kw.1 kw.2)))
    let t2 := add32 (sha256BigSig0 a) (sha256Maj a b c)
    [add32 t1 t2, a, b, c, add32 d t1, e, f, g]
  | _ => st

/-- Process one 64-byte block into the running hash state. -/
def sha256Block (h : List Nat) (block : List Nat) : List Nat :=
  let w := sha256Extend 48 (bytesToWords block)
  let st := (sha256K.zip w).foldl sha256Round h
  (h.zip st).map (fun p => add32 p.1 p.2)

/-- Fold the hash state over consecutive 64-byte blocks (`fuel` bounds the
number of blocks). -/
def sha256Blocks : Nat → List Nat → List Nat → List Nat
  | 0, h, _ => h
  | _ + 1, h, [] => h
  | fuel + 1, h, bytes => sha256Blocks fuel (sha256Block h (bytes.take 64)) (bytes.drop 64)

/-- The SHA-256 digest of a byte list, as 8 words. -/
def sha256Words (msg : List Nat) : List Nat :=
  let padded := sha256Pad msg
  sha256Blocks (padded.length / 64 + 1) sha256H0 padded

def hexDigit (n : Nat) : Char :=
  if n < 10 then Char.ofNat (48 + n) else Char.ofNat (87 + n)

/-- Lower-case hex rendering of one 32-bit word. -/
def wordToHex (w : Nat) : List Char :=
  [hexDigit (w / 2 ^ 28 % 16), hexDigit (w / 2 ^ 24 % 16), hexDigit (w / 2 ^ 20 % 16),
   hexDigit (w / 2 ^ 16 % 16), hexDigit (w / 2 ^ 12 % 16), hexDigit (w / 2 ^ 8 % 16),
   hexDigit (w / 2 ^ 4 % 16), hexDigit (w % 16)]

/-- The SHA-256 hex digest of a byte list. -/
def sha256HexBytes (msg : List Nat) : String :=
  String.mk ((sha256Words msg).map wordToHex).flatten

/-- UTF-8 encoding of one character (Python `str.encode('utf-8')`, per scalar). -/
def utf8Char (c : Char) : List Nat :=
  let n := c.toNat
  if n < 128 then [n]
  else if n < 2048 then [192 + n / 64, 128 + n % 64]
  else if n < 65536 then [224 + n / 4096, 128 + n / 64 % 64, 128 + n % 64]
  else [240 + n / 262144, 128 + n / 4096 % 64, 128 + n / 64 % 64, 128 + n % 64]

/-- UTF-8 encoding of a string. -/
def utf8Bytes (s : String) : List Nat := (s.data.map utf8Char).flatten

/-- `hashlib.sha256(s.encode('utf-8')).hexdigest()`. -/
def sha256HexUtf8 (s : String) : String := sha256HexBytes (utf8Bytes s)

/-! ## difflib.SequenceMatcher

`SequenceMatcher(None, a, b).ratio()` with no junk predicate.  The matcher
repeatedly takes the longest common contiguous block — ties resolved towards
the earliest position in `a`, then the earliest in `b` — and recurses on the
pieces to its left and right; the ratio is `2*M / (len a + len b)` where `M`
is the total matched size.  (CPython's autojunk heuristic only activates for
a second string of 200+ characters and is not modelled; every string this
development evaluates the ratio on is shorter.)  The `>= 0.75` test is
embedded as the exact comparison `8*M >= 3*(len a + len b)`. -/

/-- Length of the common run of two lists read from their heads. -/
def commonRunLen : List Char → List Char → Nat
  | x :: xs, y :: ys => if x == y then commonRunLen xs ys + 1 else 0
  | _, _ => 0

/-- Size of the common run of `a`, `b` starting at offsets `i`, `j`, clipped
to the half-open windows ending at `ahi`, `bhi`. -/
def runAt (a b : List Char) (ahi bhi i j : Nat) : Nat :=
  min (commonRunLen (a.drop i) (b.drop j)) (min (ahi - i) (bhi - j))

def natRange (lo hi : Nat) : List Nat := (List.range (hi - lo)).map (fun k => lo + k)

/-- Size of the longest common block inside the given windows. -/
def lcbSize (a b : List Char) (alo ahi blo bhi : Nat) : Nat :=
  ((natRange alo ahi).map
    (fun i => ((natRange blo bhi).map (fun j => runAt a b ahi bhi i j)).foldl max 0)).foldl max 0

/-- Start position in `a` of the longest common block (earliest such). -/
def lcbI (a b : List Char) (alo ahi blo bhi : Nat) : Nat :=
  (((natRange alo ahi).find?
    (fun i => (natRange blo bhi).any
      (fun j => runAt a b ahi bhi i j == lcbSize a b alo ahi blo bhi))).getD alo)

/-- Start position in `b` of the longest common block at `lcbI` (earliest). -/
def lcbJ (a b : List Char) (alo ahi blo bhi : Nat) : Nat :=
  (((natRange blo bhi).find?
    (fun j => runAt a b ahi bhi (lcbI a b alo ahi blo bhi) j ==
      lcbSize a b alo ahi blo bhi)).getD blo)

/-- Total size of all matching blocks in the given windows (the recursion of
`get_matching_blocks`); `fuel` bounds the recursion depth. -/
def matchTotalAux (a b : List Char) : Nat → Nat → Nat → Nat → Nat → Nat
  | 0, _, _, _, _ => 0
  | fuel + 1, alo, ahi, blo, bhi =>
    let k := lcbSize a b alo ahi blo bhi
    if k == 0 then 0
    else
      let i := lcbI a b alo ahi blo bhi
      let j := lcbJ a b alo ahi blo bhi
      matchTotalAux a b fuel alo i blo j + k + matchTotalAux a b fuel (i + k) ahi (j + k) bhi

/-- Total matched size over the whole of `a` and `b`. -/
def matchTotal (a b : List Char) : Nat :=
  matchTotalAux a b (a.length + b.length + 1) 0 a.length 0 b.length

/-- `SequenceMatcher(None, a, b).ratio() >= 0.75`, decided exactly:
`2*M/(la+lb) >= 3/4` iff `8*M >= 3*(la+lb)` (and the empty/empty ratio is
defined as 1.0, which the inequality also yields). -/
def ratioGe75 (a b : String) : Bool :=
  Nat.ble (3 * (a.data.length + b.data.length)) (8 * matchTotal a.data b.data)

set_option maxRecDepth 4000 in
/-- Sanity check of the digest embedding against the FIPS 180 test vector. -/
theorem sha256_test_vector_abc :
    sha256HexUtf8 "abc" = "ba7816bf8f01cfea414140de5dae2223b00361a396177a9cb410ff61f20015ad" := by
  decide

/-! ## Data model of src/feedr/monitor.py -/

/-- One feed entry as `MonitorFeedUpdate` reads it: the optional `published`
and `updated` keys, the title and the link. -/
structure Entry where
  published : Option String
  updated : Option String
  title : String
  link : String
deriving DecidableEq, Repr

/-- One row of the feed's database table, in the column order the source
documents and builds in `latest_rss_entry_to_db`:
`(sha256_hash text, date text, title text, url text)`.  Python tuple index
`[k]` on a row is field `k` in this declaration order. -/
structure HistoryRow where
  sha256_hash : String
  date : String
  title : String
  url : String
deriving DecidableEq, Repr

/-- `get_latest_entry_date`: the `published` key if present, else `updated`,
else the empty string. -/
def get_latest_entry_date (e : Entry) : String :=
  match e.published with
  | some d => d
  | none =>
    match e.updated with
    | some d => d
    | none => ""

/-- `rss_latest_sha256`: SHA-256 hex digest of the UTF-8 bytes of
date ++ title ++ link. -/
def rss_latest_sha256 (e : Entry) : String :=
  sha256HexUtf8 (get_latest_entry_date e ++ e.title ++ e.link)

/-- `latest_rss_entry_to_db`: the row `(hash, date, title, url)` for an entry. -/
def latest_rss_entry_to_db (e : Entry) : HistoryRow :=
  { sha256_hash := rss_latest_sha256 e
    date := get_latest_entry_date e
    title := e.title
    url := e.link }

/-- Modelled from the spec: `DatabaseManager.check_for_existing_update` is not
among the sources; the spec's store interface gives `exists(fingerprint) ->
bool`.  The store is the list of rows in insertion order, oldest first. -/
def check_for_existing_update (store : List HistoryRow) (h : String) : Bool :=
  store.any (fun r => r.sha256_hash == h)

/-- Modelled from the spec: `DatabaseManager.get_last_table_entry`, the spec's
`mostRecent() -> HistoryRecord | none`. -/
def get_last_table_entry (store : List HistoryRow) : Option HistoryRow :=
  store.getLast?

/-- Modelled from the spec: `DatabaseManager.del_last_table_entry`, the spec's
`deleteMostRecent()`. -/
def del_last_table_entry (store : List HistoryRow) : List HistoryRow :=
  store.dropLast

/-- Modelled from the spec: `DatabaseManager.create_latest_rss_entry`, the
spec's `insert(record)`. -/
def create_latest_rss_entry (store : List HistoryRow) (r : HistoryRow) : List HistoryRow :=
  store ++ [r]

/-- `is_duplicate_update` for a given store and current title.  The source
sets `prev_title = last_table_entry[3]`; index 3 of the documented row layout
`(sha256_hash, date, title, url)` is the `url` column.  Then Python's
`prev_title in cur_title` substring test, then
`SequenceMatcher(None, cur_title, prev_title).ratio() >= 0.75`. -/
def is_duplicate_update (store : List HistoryRow) (cur_title : String) : Bool :=
  match get_last_table_entry store with
  | none => false
  | some row =>
    let prev_title := row.url
    if pyInStr prev_title cur_title then true
    else if ratioGe75 cur_title prev_title then true
    else false

/-! ## The monitor loop

`MonitorFeedUpdate.monitor` as a state transformer on the store, emitting the
external calls it performs as an event trace.  `TweetUpdate.tweet_latest_update`
and `send_dm` may raise; at this level they are observed through an oracle
saying which of them fail (the method bodies are embedded separately below).
`reset_msg` and `send_dm` are not among the sources; modelled from the spec:
the Publisher retains no local state between calls (reset is a no-raise no-op)
and `sendDirectMessage(account, text)` is a plain send that may fail. -/

/-- External calls the monitor performs, in order. -/
inductive Ev
  | deleteLastTweet
  | delRow
  | tweet (e : Entry)
  | dm (user msg : String)
  | logTweetError
  | logNewUpdate
  | insertRow (r : HistoryRow)
deriving DecidableEq, Repr

/-- Which publish-side calls raise during this cycle. -/
structure MOracle where
  tweetFails : Bool
  dmFails : String → Bool

/-- The body of `send_dm_to_feed_subscribed_users`: a plain sequential loop;
a raising `send_dm` stops the loop and propagates. -/
def sendDmLoop (fails : String → Bool) (msg : String) : List String → List Ev × Option PyError
  | [] => ([], none)
  | u :: rest =>
    if fails u then ([], some PyError.exception)
    else
      let r := sendDmLoop fails msg rest
      (Ev.dm u msg :: r.1, r.2)

/-- `send_dm_to_feed_subscribed_users`: the message is `"{title}\n{link}"`. -/
def send_dm_to_feed_subscribed_users (fails : String → Bool) (users : List String) (e : Entry) :
    List Ev × Option PyError :=
  sendDmLoop fails (e.title ++ "\n" ++ e.link) users

/-- One iteration of the `monitor` loop body for entry `e`.  Returns the store
after the iteration, the trace of external calls, and an uncaught exception if
one propagates out of the iteration.  In the duplicate branch the source
subscripts the bound method object itself (`get_last_table_entry[1]`, with no
call), which raises `TypeError` right after the tweet deletion and before the
row deletion, the publish attempt and the persist step; nothing catches it. -/
def monitorEntry (o : MOracle) (users : List String) (store : List HistoryRow) (e : Entry) :
    List HistoryRow × List Ev × Option PyError :=
  if check_for_existing_update store (rss_latest_sha256 e) then (store, [], none)
  else if is_duplicate_update store e.title then
    (store, [Ev.deleteLastTweet], some PyError.typeError)
  else
    let body : List Ev × Option PyError :=
      if o.tweetFails then ([Ev.tweet e], some PyError.exception)
      else
        let dms := send_dm_to_feed_subscribed_users o.dmFails users e
        (Ev.tweet e :: dms.1, dms.2)
    let logged :=
      match body.2 with
      | some _ => body.1 ++ [Ev.logTweetError]
      | none => body.1 ++ [Ev.logNewUpdate]
    let row := latest_rss_entry_to_db e
    (create_latest_rss_entry store row, logged ++ [Ev.insertRow row], none)

/-- The `monitor` loop over entries already put in oldest-first order: each
iteration commits before the next; an uncaught exception aborts the rest. -/
def monitorCycle (o : MOracle) (users : List String) :
    List HistoryRow → List Entry → List HistoryRow × List Ev × Option PyError
  | store, [] => (store, [], none)
  | store, e :: rest =>
    let r := monitorEntry o users store e
    match r.2.2 with
    | some er => (r.1, r.2.1, some er)
    | none =>
      let r2 := monitorCycle o users r.1 rest
      (r2.1, r.2.1 ++ r2.2.1, r2.2.2)

/-- `monitor`: the source iterates `reversed(self.feed.entries)`, the feed
list being newest-first, so the cycle runs oldest-first. -/
def monitor (o : MOracle) (users : List String) (store : List HistoryRow)
    (feedEntries : List Entry) : List HistoryRow × List Ev × Option PyError :=
  monitorCycle o users store feedEntries.reverse

/-! ## src/feedr/tweetupdate.py

BeautifulSoup is an external collaborator; an HTML body is represented by its
observable at the interface the source uses: the Python truthiness of the raw
string and the `<img>` tags in document order, each as its attribute map. -/

/-- The parse-level view of one HTML body. -/
structure HtmlBody where
  truthy : Bool
  imgTags : List (List (String × String))
deriving DecidableEq, Repr

/-- Python dict lookup on a tag's attribute map (first binding wins). -/
def lookupAttr : List (String × String) → String → Option String
  | [], _ => none
  | (k, v) :: rest, key => if k == key then some v else lookupAttr rest key

/-- `get_entry_img_url`: prefer `content[0]`, fall back to `description`; with
neither, or with a falsy body, or with no `<img>`, the function falls off the
end (Python `None`); `img_tag['src']` raises `KeyError` when the first `<img>`
has no `src` attribute, and `content[0]` raises `IndexError` on an empty
content list. -/
def get_entry_img_url (content : Option (List HtmlBody)) (description : Option HtmlBody) :
    Except PyError (Option String) :=
  let entryHtml : Except PyError (Option HtmlBody) :=
    match content with
    | some docs =>
      match docs.head? with
      | some d => Except.ok (some d)
      | none => Except.error PyError.indexError
    | none =>
      match description with
      | some d => Except.ok (some d)
      | none => Except.ok none
  match entryHtml with
  | Except.error er => Except.error er
  | Except.ok none => Except.ok none
  | Except.ok (some d) =>
    if d.truthy then
      match d.imgTags.head? with
      | some attrs =>
        match lookupAttr attrs "src" with
        | some v => Except.ok (some v)
        | none => Except.error PyError.keyError
      | none => Except.ok none
    else Except.ok none

/-- The `title`/`summary` fields of the `msg` dict after the truncation logic
of `tweet_latest_update`, together with the character budget in force. -/
structure Composed where
  limit : Nat
  titleField : String
  summaryField : Option String
deriving DecidableEq, Repr

/-- The composition steps of `tweet_latest_update`: budget 140 minus 24 when
the link is truthy minus 25 when an image url was found; set `title`, truncate
to `limit - 3` plus ellipsis when it alone overflows (summary then never set);
otherwise set `summary` when present and, if the pair overflows, re-slice the
summary by `s[:summary_length - 3]` where `summary_length = limit - msg_length()`
is computed after `summary` was already set (hence negative). -/
def composeMsg (title link : String) (summary : Option String) (imgTruthy : Bool) : Composed :=
  let limit : Nat := 140 - (if !(link == "") then 24 else 0) - (if imgTruthy then 25 else 0)
  let len0 := (pyTruthyJoin [some title]).length
  if limit < len0 then
    { limit := limit
      titleField := pySliceTo title ((limit : Int) - 3) ++ "..."
      summaryField := none }
  else
    match summary with
    | none => { limit := limit, titleField := title, summaryField := none }
    | some s =>
      let len1 := (pyTruthyJoin [some title, some s]).length
      if limit < len1 then
        { limit := limit
          titleField := title
          summaryField := some (pySliceTo s (((limit : Int) - (len1 : Int)) - 3) ++ "...") }
      else
        { limit := limit, titleField := title, summaryField := some s }

/-- `msg_length()` as measured right after the title/summary steps (the `url`
and `img_url` slots are still `None` there). -/
def composeBody (c : Composed) : String :=
  pyTruthyJoin [some c.titleField, c.summaryField]

/-- One attempted call to the platform, with the status text it carried. -/
inductive Att
  | media (status : String)
  | plain (status : String)
deriving DecidableEq, Repr

/-- Which platform calls answer with `TwitterHTTPError`. -/
structure TwOracle where
  mediaRejects : Bool
  plainRejects : Bool
  plainRejects2 : Bool

/-- A feed entry as `tweet_latest_update` reads it. -/
structure TweetEntry where
  title : String
  link : String
  summary : Option String
  content : Option (List HtmlBody)
  description : Option HtmlBody
deriving DecidableEq, Repr

/-- The plain-post chain: first `'\n'.join(filter(bool, msg.values()))` with
whatever `img_url` text slot is set; on `TwitterHTTPError`, `msg.pop('summary')`
and one retry; a second rejection propagates. -/
def tweetPlainChain (o : TwOracle) (c : Composed) (url : String) (imgField : Option String)
    (acc : List Att) : List Att × Except PyError String :=
  let status1 := pyTruthyJoin [some c.titleField, c.summaryField, some url, imgField]
  if !o.plainRejects then (acc ++ [Att.plain status1], Except.ok status1)
  else
    let status2 := pyTruthyJoin [some c.titleField, some url, imgField]
    if !o.plainRejects2 then (acc ++ [Att.plain status1, Att.plain status2], Except.ok status2)
    else (acc ++ [Att.plain status1, Att.plain status2], Except.error PyError.twitterHTTPError)

/-- `tweet_latest_update`: image extraction (its exceptions propagate), the
composition above, then the attempt sequence.  When an image was found the
media attempt's status is the source's `'\n'.join(msg)` — joining the
`OrderedDict` itself iterates its keys, so the status is the literal key names
`"title\nsummary\nurl\nimg_url"`; on media rejection the `img_url` text slot
is set and the plain chain runs. -/
def tweet_latest_update (o : TwOracle) (e : TweetEntry) : List Att × Except PyError String :=
  match get_entry_img_url e.content e.description with
  | Except.error er => ([], Except.error er)
  | Except.ok imgOpt =>
    let url := e.link
    let imgTruthy := match imgOpt with | some s => !(s == "") | none => false
    let c := composeMsg e.title url e.summary imgTruthy
    if imgTruthy then
      let keyStatus := "title\nsummary\nurl\nimg_url"
      if !o.mediaRejects then ([Att.media keyStatus], Except.ok keyStatus)
      else tweetPlainChain o c url imgOpt [Att.media keyStatus]
    else tweetPlainChain o c url none []

/-! ## Supporting lemmas -/

theorem stringDataInj {a b : String} (h : a.data = b.data) : a = b :=
  congrArg String.mk h

/-- Changing exactly one component of the `date ++ title ++ link` triple
changes the concatenation: string concatenation cancels on either side. -/
theorem concat3_ne_of_one_change {d1 t1 l1 d2 t2 l2 : String}
    (hne : (d1 ≠ d2 ∧ t1 = t2 ∧ l1 = l2) ∨ (d1 = d2 ∧ t1 ≠ t2 ∧ l1 = l2) ∨
      (d1 = d2 ∧ t1 = t2 ∧ l1 ≠ l2)) :
    d1 ++ t1 ++ l1 ≠ d2 ++ t2 ++ l2 := by
  intro h
  have hd : d1.data ++ t1.data ++ l1.data = d2.data ++ t2.data ++ l2.data := by
    have h2 := congrArg String.data h
    simpa [String.data_append] using h2
  rcases hne with ⟨hdne, ht, hl⟩ | ⟨hdq, htne, hl⟩ | ⟨hdq, ht, hlne⟩
  · subst ht
    subst hl
    exact hdne (stringDataInj (List.append_cancel_right (List.append_cancel_right hd)))
  · subst hdq
    subst hl
    exact htne (stringDataInj (List.append_cancel_left (List.append_cancel_right hd)))
  · subst hdq
    subst ht
    exact hlne (stringDataInj (List.append_cancel_left hd))

/-- A failing recipient in the middle of the DM loop: everyone before it got
the message, the failure propagates, nobody after it is reached. -/
theorem sendDmLoop_split (fails : String → Bool) (msg : String) (us1 : List String)
    (u : String) (us2 : List String)
    (h1 : ∀ v ∈ us1, fails v = false) (hu : fails u = true) :
    sendDmLoop fails msg (us1 ++ u :: us2) =
      (us1.map (fun v => Ev.dm v msg), some PyError.exception) := by
  induction us1 with
  | nil => simp [sendDmLoop, hu]
  | cons a as ih =>
    have ha : fails a = false := h1 a (by simp)
    have ih2 := ih (fun v hv => h1 v (by simp [hv]))
    simp [sendDmLoop, ha, ih2]

/-! ## The claims -/

/-- Claim C8: the fingerprint is the SHA-256 hex digest of the UTF-8 bytes of
`date ++ title ++ link`; identical triples give identical fingerprints, and a
change to exactly one of the three fields changes the concatenated pre-image,
hence — under the stated no-collision hypothesis for the digest on the two
pre-images — the fingerprint. -/
theorem fingerprint_triple_determines :
    (∀ e1 e2 : Entry,
      get_latest_entry_date e1 = get_latest_entry_date e2 → e1.title = e2.title →
        e1.link = e2.link → rss_latest_sha256 e1 = rss_latest_sha256 e2) ∧
    (∀ e1 e2 : Entry,
      ((get_latest_entry_date e1 ≠ get_latest_entry_date e2 ∧ e1.title = e2.title ∧
          e1.link = e2.link) ∨
        (get_latest_entry_date e1 = get_latest_entry_date e2 ∧ e1.title ≠ e2.title ∧
          e1.link = e2.link) ∨
        (get_latest_entry_date e1 = get_latest_entry_date e2 ∧ e1.title = e2.title ∧
          e1.link ≠ e2.link)) →
      (sha256HexUtf8 (get_latest_entry_date e1 ++ e1.title ++ e1.link) =
          sha256HexUtf8 (get_latest_entry_date e2 ++ e2.title ++ e2.link) →
        get_latest_entry_date e1 ++ e1.title ++ e1.link =
          get_latest_entry_date e2 ++ e2.title ++ e2.link) →
      rss_latest_sha256 e1 ≠ rss_latest_sha256 e2) := by
  constructor
  · intro e1 e2 hd ht hl
    unfold rss_latest_sha256
    rw [hd, ht, hl]
  · intro e1 e2 hne hnocoll heq
    exact concat3_ne_of_one_change hne (hnocoll heq)

def c8E1 : Entry := { published := some "d", updated := none, title := "t", link := "l" }

def c8E2 : Entry := { published := some "e", updated := none, title := "t", link := "l" }

set_option maxRecDepth 4000 in
set_option maxHeartbeats 4000000 in
/-- Witness for C8 at a concrete one-field change whose two digests the kernel
evaluates and finds distinct. -/
theorem fingerprint_triple_determines_witness :
    rss_latest_sha256 c8E1 = rss_latest_sha256 c8E1 ∧
    rss_latest_sha256 c8E1 ≠ rss_latest_sha256 c8E2 :=
  ⟨fingerprint_triple_determines.1 c8E1 c8E1 rfl rfl rfl,
   fingerprint_triple_determines.2 c8E1 c8E2 (Or.inl (by decide))
     (fun h => absurd h (by decide))⟩

/-- Claim C5: an entry whose fingerprint is already stored is a complete
no-op — the iteration leaves the store untouched and performs no external
call, whatever the subscriber list and however the publish side would have
behaved. -/
theorem monitor_already_seen_noop (o : MOracle) (users : List String)
    (store : List HistoryRow) (e : Entry)
    (h : check_for_existing_update store (rss_latest_sha256 e) = true) :
    monitorEntry o users store e = (store, [], none) := by
  simp [monitorEntry, h]

def c5Entry : Entry :=
  { published := some "2024-01-01", updated := none, title := "Quiet news", link := "http://ex/1" }

def c5Oracle : MOracle := { tweetFails := false, dmFails := fun _ => false }

/-- Witness for C5: a store holding exactly the record a prior cycle would
have written for the entry. -/
theorem monitor_already_seen_noop_witness :
    check_for_existing_update [latest_rss_entry_to_db c5Entry] (rss_latest_sha256 c5Entry) = true ∧
    monitorEntry c5Oracle ["alice"] [latest_rss_entry_to_db c5Entry] c5Entry =
      ([latest_rss_entry_to_db c5Entry], [], none) := by
  have hch : check_for_existing_update [latest_rss_entry_to_db c5Entry]
      (rss_latest_sha256 c5Entry) = true := by
    simp [check_for_existing_update, latest_rss_entry_to_db]
  exact ⟨hch, monitor_already_seen_noop c5Oracle ["alice"] _ c5Entry hch⟩

/-- Claim C9: the DM fan-out is a plain sequential loop with no per-recipient
isolation.  With the tweet succeeding and the failing subscriber `u` in the
middle of the list, exactly the subscribers before `u` receive the message,
the exception lands in the handler shared with the publish call and is logged
as a tweet-send error, the record is still persisted, no exception escapes the
iteration, and the cycle goes on to the remaining entries. -/
theorem dm_failure_shared_handler (o : MOracle) (store : List HistoryRow) (e : Entry)
    (us1 : List String) (u : String) (us2 : List String)
    (hcheck : check_for_existing_update store (rss_latest_sha256 e) = false)
    (hdup : is_duplicate_update store e.title = false)
    (htweet : o.tweetFails = false)
    (h1 : ∀ v ∈ us1, o.dmFails v = false)
    (hu : o.dmFails u = true) :
    monitorEntry o (us1 ++ u :: us2) store e =
      (store ++ [latest_rss_entry_to_db e],
       Ev.tweet e :: us1.map (fun v => Ev.dm v (e.title ++ "\n" ++ e.link)) ++
         [Ev.logTweetError, Ev.insertRow (latest_rss_entry_to_db e)],
       none) ∧
    ∀ rest : List Entry,
      (monitorCycle o (us1 ++ u :: us2) store (e :: rest)).2.2 =
        (monitorCycle o (us1 ++ u :: us2) (store ++ [latest_rss_entry_to_db e]) rest).2.2 := by
  have hmain : monitorEntry o (us1 ++ u :: us2) store e =
      (store ++ [latest_rss_entry_to_db e],
       Ev.tweet e :: us1.map (fun v => Ev.dm v (e.title ++ "\n" ++ e.link)) ++
         [Ev.logTweetError, Ev.insertRow (latest_rss_entry_to_db e)],
       none) := by
    simp [monitorEntry, hcheck, hdup, htweet, send_dm_to_feed_subscribed_users,
      sendDmLoop_split o.dmFails (e.title ++ "\n" ++ e.link) us1 u us2 h1 hu,
      create_latest_rss_entry]
  refine ⟨hmain, fun rest => ?_⟩
  simp [monitorCycle, hmain]

def c9Entry : Entry :=
  { published := some "2024-02-02", updated := none, title := "Fresh news", link := "http://ex/2" }

def c9Oracle : MOracle := { tweetFails := false, dmFails := fun v => v == "bob" }

/-- Witness for C9: subscribers alice, bob, carol with bob failing — alice is
messaged, carol is not, the error is logged, the row is inserted. -/
theorem dm_failure_shared_handler_witness :
    check_for_existing_update [] (rss_latest_sha256 c9Entry) = false ∧
    monitorEntry c9Oracle ["alice", "bob", "carol"] [] c9Entry =
      ([latest_rss_entry_to_db c9Entry],
       [Ev.tweet c9Entry, Ev.dm "alice" (c9Entry.title ++ "\n" ++ c9Entry.link),
        Ev.logTweetError, Ev.insertRow (latest_rss_entry_to_db c9Entry)],
       none) := by
  refine ⟨rfl, ?_⟩
  have h := (dm_failure_shared_handler c9Oracle [] c9Entry ["alice"] "bob" ["carol"]
    rfl rfl rfl (by decide) rfl).1
  simpa using h

/-- Claim C10: `get_entry_img_url` returns `None` when the entry has neither
a content nor a description field, and on any truthy body without an `<img>`
tag; but when the first `<img>` has no `src` attribute, the lookup raises
`KeyError` instead of returning `None`. -/
theorem get_entry_img_url_cases :
    (get_entry_img_url none none = Except.ok none) ∧
    (∀ h : HtmlBody, h.imgTags = [] →
      get_entry_img_url none (some h) = Except.ok none ∧
      get_entry_img_url (some [h]) none = Except.ok none) ∧
    (∀ (h : HtmlBody) (attrs : List (String × String)) (rest : List (List (String × String))),
      h.truthy = true → h.imgTags = attrs :: rest → lookupAttr attrs "src" = none →
      get_entry_img_url none (some h) = Except.error PyError.keyError ∧
      get_entry_img_url (some [h]) none = Except.error PyError.keyError) := by
  refine ⟨rfl, ?_, ?_⟩
  · intro h hh
    constructor <;> simp [get_entry_img_url, hh]
  · intro h attrs rest ht hh hsrc
    constructor <;> simp [get_entry_img_url, ht, hh, hsrc]

/-- Witness for C10: a body with no `<img>` gives `None`; a body whose only
`<img>` lacks `src` raises `KeyError`. -/
theorem get_entry_img_url_cases_witness :
    get_entry_img_url none (some { truthy := true, imgTags := [] }) = Except.ok none ∧
    get_entry_img_url none (some { truthy := true, imgTags := [[("alt", "x")]] }) =
      Except.error PyError.keyError :=
  ⟨(get_entry_img_url_cases.2.1 { truthy := true, imgTags := [] } rfl).1,
   (get_entry_img_url_cases.2.2 { truthy := true, imgTags := [[("alt", "x")]] }
     [("alt", "x")] [] rfl rfl rfl).1⟩

def c1Store : List HistoryRow :=
  [{ sha256_hash := "h0", date := "d0", title := "Old news", url := "A" }]

def c1Entry : Entry :=
  { published := some "2024-03-03", updated := none, title := "Abc news", link := "http://ex/3" }

def c1Oracle : MOracle := { tweetFails := false, dmFails := fun _ => false }

set_option maxRecDepth 4000 in
set_option maxHeartbeats 4000000 in
/-- Claim C1: evaluation at an entry the code classifies a duplicate (the
stored row's url column is a substring of the new title).  After deleting the
last tweet, `get_last_table_entry[1]` subscripts the bound method object and
raises `TypeError`: the history record is not deleted, no retraction event is
emitted, nothing is published or inserted, and the exception escapes the
iteration — not the retract-and-republish sequence the claim describes. -/
theorem monitor_duplicate_retraction_crash :
    check_for_existing_update c1Store (rss_latest_sha256 c1Entry) = false ∧
    is_duplicate_update c1Store c1Entry.title = true ∧
    monitorEntry c1Oracle ["alice"] c1Store c1Entry =
      (c1Store, [Ev.deleteLastTweet], some PyError.typeError) := by
  decide

def c2Store : List HistoryRow :=
  [{ sha256_hash := "h3", date := "d3", title := "Storm warning", url := "x" }]

/-- Claim C2: evaluation showing `is_duplicate_update` compares against the
url column.  The stored record's title is a substring of the current title, so
the claim predicts `true`; the code reads row index 3 — the url `"x"` — finds
no containment and a ratio of 0, and returns `false`. -/
theorem is_duplicate_update_reads_url_column :
    get_last_table_entry c2Store =
      some { sha256_hash := "h3", date := "d3", title := "Storm warning", url := "x" } ∧
    pyInStr "Storm warning" "Storm warning - updated" = true ∧
    is_duplicate_update c2Store "Storm warning - updated" = false := by
  decide

def c3Store : List HistoryRow :=
  [{ sha256_hash := "h1", date := "d1", title := "Old news", url := "B" }]

def c3Dup : Entry :=
  { published := some "2024-04-04", updated := none, title := "Big breaking news",
    link := "http://ex/4" }

def c3Fresh : Entry :=
  { published := some "2024-04-05", updated := none, title := "Other", link := "http://ex/5" }

def c3Oracle : MOracle := { tweetFails := false, dmFails := fun _ => false }

set_option maxRecDepth 4000 in
set_option maxHeartbeats 4000000 in
/-- Claim C3: evaluation of a cycle whose first entry is not already seen but
is classified a duplicate.  The claim says every non-already-seen entry gets a
publish attempt and a DM fan-out and that failures do not abort the cycle; the
code instead raises `TypeError` in the duplicate branch before any publish, no
tweet or DM event appears in the trace, and the second entry of the cycle is
never processed. -/
theorem monitor_duplicate_aborts_cycle :
    monitorCycle c3Oracle ["alice"] c3Store [c3Dup, c3Fresh] =
      (c3Store, [Ev.deleteLastTweet], some PyError.typeError) := by
  decide

def c4Store : List HistoryRow :=
  [{ sha256_hash := "h2", date := "d2", title := "Old news", url := "C" }]

def c4Entry : Entry :=
  { published := some "2024-05-05", updated := none, title := "Cool item", link := "http://ex/6" }

def c4Oracle : MOracle := { tweetFails := false, dmFails := fun _ => false }

/-- Whether an event is the history-persist insert. -/
def isInsertEv : Ev → Bool
  | Ev.insertRow _ => true
  | _ => false

set_option maxRecDepth 4000 in
set_option maxHeartbeats 4000000 in
/-- Claim C4: evaluation at a non-already-seen entry (classified duplicate)
for which the unconditional history persist never happens: the iteration
crashes with `TypeError` before the try/finally, the store is unchanged and
the trace holds no insert event, so this entry's fingerprint is not recorded —
against the claim that every non-already-seen entry is persisted. -/
theorem monitor_duplicate_skips_persist :
    check_for_existing_update c4Store (rss_latest_sha256 c4Entry) = false ∧
    (monitorEntry c4Oracle [] c4Store c4Entry).1 = c4Store ∧
    ((monitorEntry c4Oracle [] c4Store c4Entry).2.1.all fun ev => !isInsertEv ev) = true ∧
    (monitorEntry c4Oracle [] c4Store c4Entry).2.2 = some PyError.typeError := by
  decide

def c6Title : String := String.mk (List.replicate 116 'a')

set_option maxRecDepth 8000 in
/-- Claim C6: evaluation at a title of exactly the reduced budget (140 - 24
for the link = 116) together with a nonempty summary.  The summary-truncation
slice underflows (`summary[:limit - msg_length() - 3]` with a negative bound
beyond the summary's length), leaving the summary field `"..."`, and the
composed message is 120 characters against the 116-character budget — the
message exceeds the budget instead of fitting exactly. -/
theorem compose_budget_overflow :
    (composeMsg c6Title "http://e" (some "hello!") false).limit = 116 ∧
    (composeMsg c6Title "http://e" (some "hello!") false).summaryField = some "..." ∧
    (composeBody (composeMsg c6Title "http://e" (some "hello!") false)).length = 120 ∧
    (composeMsg c6Title "http://e" (some "hello!") false).limit <
      (composeBody (composeMsg c6Title "http://e" (some "hello!") false)).length := by
  decide

deriving instance DecidableEq for Except

def c7Entry : TweetEntry :=
  { title := "T", link := "http://l", summary := some "S", content := none,
    description := some { truthy := true, imgTags := [[("src", "http://img")]] } }

def c7Oracle : TwOracle := { mediaRejects := false, plainRejects := false, plainRejects2 := false }

/-- Claim C7: evaluation at an entry with an image.  The claim says the
post-with-media carries the composed message without the `img_url` field —
here `"T\nS\nhttp://l"` — but the source's `'\n'.join(msg)` iterates the
`OrderedDict`'s keys, so the status actually posted is the literal key names
`"title\nsummary\nurl\nimg_url"`. -/
theorem tweet_media_status_is_key_names :
    tweet_latest_update c7Oracle c7Entry =
      ([Att.media "title\nsummary\nurl\nimg_url"], Except.ok "title\nsummary\nurl\nimg_url") ∧
    pyTruthyJoin [some "T", some "S", some "http://l"] = "T\nS\nhttp://l" ∧
    ("title\nsummary\nurl\nimg_url" : String) ≠ "T\nS\nhttp://l" := by
  decide
